import Mathlib

/-
Verification of the arti-brindavanchat FFI lifecycle controller
(src/localPackages/Arti/arti-bitchat/src/lib.rs).

The Rust module keeps four pieces of process-wide state:
  static ARTI_STATE : OnceCell (Mutex ArtiState) with fields
    runtime, shutdown_tx : Option (oneshot.Sender Unit), client : Option (Arc TorClient)
  static BOOTSTRAP_PROGRESS : AtomicI32 = 0
  static IS_RUNNING : AtomicBool = false
  static BOOTSTRAP_SUMMARY : Mutex String = ""
and exposes the C entry points arti_start, arti_stop, arti_is_running,
arti_bootstrap_progress, arti_bootstrap_summary, arti_go_dormant, arti_wake,
plus the async supervisor body run_arti spawned by arti_start.

The shallow embedding below models this as one state record.  Each FFI entry
point is a pure function from state to (return code, state); the body of the
spawned run_arti task is modelled by a labelled small-step relation whose
atomic steps are the effectful phases of run_arti (directory creation,
config building, bootstrap, listener bind, accept-loop iterations, shutdown)
interleaved freely with the FFI calls.  Fallible external operations
(filesystem, bootstrap, bind) are resolved by the step labels, which carry
the error text on failure.  The oneshot channel is modelled by two booleans:
whether the sender half is still stored (shutdown_tx) and whether the signal
of the current channel has been fired (signalFired); a fresh channel on start
resets signalFired.  Locks are modelled as never poisoned: the embedded code
contains no panicking path while a lock is held.
-/

/-- A C-string argument as seen through CStr.from_ptr(..).to_str(): the only
observable the Rust code extracts is whether the bytes decode as UTF-8 and,
if so, which string they decode to. -/
inductive CPath where
  /-- The bytes are valid UTF-8 and decode to the given string. -/
  | utf8 (s : String) : CPath
  /-- The bytes are not valid UTF-8, so to_str fails. -/
  | invalidUtf8 : CPath
deriving DecidableEq, Repr

/-- The result of CStr.to_str on the argument. -/
def CPath.toStr : CPath → Option String
  | CPath.utf8 s => some s
  | CPath.invalidUtf8 => none

/-- Where the spawned run_arti task stands in its single forward path.
idle means no supervisor task is live (never spawned, or its wrapper has
finished storing IS_RUNNING=false / BOOTSTRAP_PROGRESS=0). -/
inductive SupPhase where
  /-- No supervisor task is live. -/
  | idle : SupPhase
  /-- Task spawned by arti_start; run_arti has not executed anything yet. -/
  | started : SupPhase
  /-- create_dir_all succeeded and summary was set to Configuring. -/
  | configuring : SupPhase
  /-- Config built, summary set to Bootstrapping, about to create_bootstrapped. -/
  | bootstrapping : SupPhase
  /-- Bootstrap succeeded: client stored, progress 100, summary Ready. -/
  | bootstrapped : SupPhase
  /-- Listener bound; looping in tokio.select over accept and shutdown_rx. -/
  | accepting : SupPhase
deriving DecidableEq, Repr

/-- The observable process-wide state of the module: the three status
statics, whether the ARTI_STATE OnceCell has been initialised (the tokio
runtime exists), the two mutable fields of ArtiState behind the mutex
(presence of the shutdown sender and of the client handle), whether the
current oneshot channel has been fired, and the supervisor task phase. -/
structure ArtiState where
  /-- IS_RUNNING : AtomicBool. -/
  running : Bool
  /-- BOOTSTRAP_PROGRESS : AtomicI32. -/
  progress : Int
  /-- BOOTSTRAP_SUMMARY : Mutex String. -/
  summary : String
  /-- Whether ARTI_STATE.get_or_try_init has succeeded (runtime created). -/
  stateInit : Bool
  /-- Whether ArtiState.shutdown_tx is Some (sender half still stored). -/
  shutdown_tx : Bool
  /-- Whether ArtiState.client is Some (client handle stored). -/
  client : Bool
  /-- Whether the oneshot channel of the current cycle has been sent on. -/
  signalFired : Bool
  /-- Phase of the (at most one) live run_arti task. -/
  phase : SupPhase
deriving DecidableEq, Repr

/-- The state at process start: statics IS_RUNNING=false, BOOTSTRAP_PROGRESS=0,
BOOTSTRAP_SUMMARY="", ARTI_STATE uninitialised, no task. -/
def s0 : ArtiState :=
  { running := false
    progress := 0
    summary := ""
    stateInit := false
    shutdown_tx := false
    client := false
    signalFired := false
    phase := SupPhase.idle }

/-- fn update_summary(s: str): lock BOOTSTRAP_SUMMARY, clear, push_str. -/
def update_summary (t : String) (s : ArtiState) : ArtiState :=
  { s with summary := t }

/-- pub extern fn arti_start(data_dir, socks_port) modelled line by line:
return -1 if IS_RUNNING; -2 if CStr.to_str fails; -3 if the runtime cannot
be created on the first-ever initialisation (rtOk is the oracle for
Runtime.new, consulted only when the OnceCell is still empty); otherwise
store a fresh shutdown sender, spawn run_arti (phase becomes started), set
IS_RUNNING=true, BOOTSTRAP_PROGRESS=0, summary "Starting...", return 0.
socksPort is carried but — as in the source, where it only feeds the bind
address used by the spawned task — has no effect on the synchronous outcome. -/
def arti_start (dataDir : CPath) (socksPort : Nat) (rtOk : Bool)
    (s : ArtiState) : Int × ArtiState :=
  if s.running then (-1, s)
  else
    match dataDir.toStr with
    | none => (-2, s)
    | some _dataPath =>
      if s.stateInit = false ∧ rtOk = false then (-3, s)
      else
        (0, { s with
              stateInit := true
              shutdown_tx := true
              signalFired := false
              phase := SupPhase.started
              running := true
              progress := 0
              summary := "Starting..." })

/-- pub extern fn arti_stop(): return -1 if not IS_RUNNING (or, vacuously in
reachable states, if ARTI_STATE.get() is None); otherwise take the stored
sender and send on it if present, clear the client, sleep the grace period,
store IS_RUNNING=false, BOOTSTRAP_PROGRESS=0, summary "", return 0. -/
def arti_stop (s : ArtiState) : Int × ArtiState :=
  if s.running = false then (-1, s)
  else if s.stateInit = false then (-1, s)
  else
    (0, { s with
          shutdown_tx := false
          signalFired := s.signalFired || s.shutdown_tx
          client := false
          running := false
          progress := 0
          summary := "" })

/-- pub extern fn arti_is_running(). -/
def arti_is_running (s : ArtiState) : Int :=
  if s.running then 1 else 0

/-- pub extern fn arti_bootstrap_progress(). -/
def arti_bootstrap_progress (s : ArtiState) : Int :=
  s.progress

/-- UTF-8 encoding of one scalar value, as the byte list that the Rust str
representation stores for it. -/
def utf8EncodeCharNat (c : Char) : List Nat :=
  let n := c.toNat
  if n < 0x80 then [n]
  else if n < 0x800 then
    [0xC0 + n / 0x40, 0x80 + n % 0x40]
  else if n < 0x10000 then
    [0xE0 + n / 0x1000, 0x80 + (n / 0x40) % 0x40, 0x80 + n % 0x40]
  else
    [0xF0 + n / 0x40000, 0x80 + (n / 0x1000) % 0x40, 0x80 + (n / 0x40) % 0x40,
     0x80 + n % 0x40]

/-- String.as_bytes of Rust: the UTF-8 byte sequence of the string. -/
def utf8Bytes (s : String) : List Nat :=
  s.data.foldr (fun c acc => utf8EncodeCharNat c ++ acc) []

/-- pub extern fn arti_bootstrap_summary(buf, len): -1 when buf is null or
len <= 0, else copy min(bytes.len(), (len-1) as usize) bytes of the locked
summary into buf, write one 0 terminator after them, and return the copy
count.  bufNull models buf.is_null(); the returned list is the byte image
written into the buffer (content bytes followed by the terminator); nothing
is written on the -1 path. -/
def arti_bootstrap_summary (bufNull : Bool) (len : Int) (s : ArtiState) :
    Int × List Nat :=
  if bufNull || len ≤ 0 then (-1, [])
  else
    let bytes := utf8Bytes s.summary
    let copy_len := min bytes.length (len - 1).toNat
    ((copy_len : Int), bytes.take copy_len ++ [0])

/-- pub extern fn arti_go_dormant(): -1 if not IS_RUNNING, else set summary
"Dormant" and return 0. -/
def arti_go_dormant (s : ArtiState) : Int × ArtiState :=
  if s.running = false then (-1, s)
  else (0, update_summary "Dormant" s)

/-- pub extern fn arti_wake(): -1 if not IS_RUNNING, else set summary
"Active" and return 0. -/
def arti_wake (s : ArtiState) : Int × ArtiState :=
  if s.running = false then (-1, s)
  else (0, update_summary "Active" s)

/-- The cleanup in the spawn wrapper when run_arti returns Err(e):
update_summary("Error: e"), then IS_RUNNING=false, BOOTSTRAP_PROGRESS=0;
the task is gone afterwards. -/
def supTermErr (e : String) (s : ArtiState) : ArtiState :=
  { s with
    summary := "Error: " ++ e
    running := false
    progress := 0
    phase := SupPhase.idle }

/-- The exit path of run_arti after the shutdown arm of the select fires:
update_summary("Shutting down..."), return Ok, then the wrapper stores
IS_RUNNING=false, BOOTSTRAP_PROGRESS=0; the task is gone afterwards. -/
def supTermClean (s : ArtiState) : ArtiState :=
  { s with
    summary := "Shutting down..."
    running := false
    progress := 0
    phase := SupPhase.idle }

/-- Labels of the atomic steps of the interleaved system: one label per FFI
call and one per effectful phase of the spawned run_arti task. -/
inductive ArtiAction where
  | callStart (dd : CPath) (port : Nat) (rtOk : Bool) : ArtiAction
  | callStop : ArtiAction
  | callDormant : ArtiAction
  | callWake : ArtiAction
  /-- create_dir_all succeeded; summary set to "Configuring...". -/
  | supDirsOk : ArtiAction
  /-- create_dir_all failed with error text e. -/
  | supDirsFail (e : String) : ArtiAction
  /-- TorClientConfigBuilder build succeeded; summary "Bootstrapping...". -/
  | supConfigOk : ArtiAction
  /-- Config building failed with error text e. -/
  | supConfigFail (e : String) : ArtiAction
  /-- create_bootstrapped succeeded: client stored, progress 100, "Ready". -/
  | supBootOk : ArtiAction
  /-- create_bootstrapped failed with error text e. -/
  | supBootFail (e : String) : ArtiAction
  /-- TcpListener.bind succeeded; accept loop entered. -/
  | supBindOk : ArtiAction
  /-- TcpListener.bind failed with error text e. -/
  | supBindFail (e : String) : ArtiAction
  /-- One accept-loop iteration: a connection dispatched to its own task, or
  a transient accept error logged; no observable state change. -/
  | supAcceptConn : ArtiAction
  /-- The shutdown arm of the select fired; loop exits and the task ends. -/
  | supShutdown : ArtiAction
deriving DecidableEq, Repr

/-- One atomic step of the system: an FFI call runs to completion on the
calling thread, or the live run_arti task advances one effectful phase. -/
inductive Step : ArtiState → ArtiAction → ArtiState → Prop where
  | callStart (s : ArtiState) (dd : CPath) (port : Nat) (rtOk : Bool) :
      Step s (ArtiAction.callStart dd port rtOk) (arti_start dd port rtOk s).2
  | callStop (s : ArtiState) :
      Step s ArtiAction.callStop (arti_stop s).2
  | callDormant (s : ArtiState) :
      Step s ArtiAction.callDormant (arti_go_dormant s).2
  | callWake (s : ArtiState) :
      Step s ArtiAction.callWake (arti_wake s).2
  | supDirsOk (s : ArtiState) (h : s.phase = SupPhase.started) :
      Step s ArtiAction.supDirsOk
        { s with phase := SupPhase.configuring, summary := "Configuring..." }
  | supDirsFail (s : ArtiState) (e : String) (h : s.phase = SupPhase.started) :
      Step s (ArtiAction.supDirsFail e) (supTermErr e s)
  | supConfigOk (s : ArtiState) (h : s.phase = SupPhase.configuring) :
      Step s ArtiAction.supConfigOk
        { s with phase := SupPhase.bootstrapping, summary := "Bootstrapping..." }
  | supConfigFail (s : ArtiState) (e : String)
      (h : s.phase = SupPhase.configuring) :
      Step s (ArtiAction.supConfigFail e) (supTermErr e s)
  | supBootOk (s : ArtiState) (h : s.phase = SupPhase.bootstrapping) :
      Step s ArtiAction.supBootOk
        { s with
          phase := SupPhase.bootstrapped
          client := s.stateInit || s.client
          progress := 100
          summary := "Ready" }
  | supBootFail (s : ArtiState) (e : String)
      (h : s.phase = SupPhase.bootstrapping) :
      Step s (ArtiAction.supBootFail e) (supTermErr e s)
  | supBindOk (s : ArtiState) (h : s.phase = SupPhase.bootstrapped) :
      Step s ArtiAction.supBindOk { s with phase := SupPhase.accepting }
  | supBindFail (s : ArtiState) (e : String)
      (h : s.phase = SupPhase.bootstrapped) :
      Step s (ArtiAction.supBindFail e) (supTermErr e s)
  | supAcceptConn (s : ArtiState) (h : s.phase = SupPhase.accepting) :
      Step s ArtiAction.supAcceptConn s
  | supShutdown (s : ArtiState) (h : s.phase = SupPhase.accepting)
      (hf : s.signalFired = true) :
      Step s ArtiAction.supShutdown (supTermClean s)

/-- A state the process can reach from start-up by any interleaving of FFI
calls and supervisor-task phases. -/
inductive Reach : ArtiState → Prop where
  | init : Reach s0
  | step {s s' : ArtiState} {a : ArtiAction} (hr : Reach s) (hs : Step s a s') :
      Reach s'

/-- FFI-level view of arti_start in which the data_dir pointer may be null.
The source calls CStr.from_ptr(data_dir) unconditionally, with no null
check, so a null pointer is dereferenced and the call has no defined
result: the null case is modelled as none, and every defined result comes
from a non-null pointer. -/
def arti_start_ffi (dataDir : Option CPath) (socksPort : Nat) (rtOk : Bool)
    (s : ArtiState) : Option (Int × ArtiState) :=
  match dataDir with
  | none => none
  | some dd => some (arti_start dd socksPort rtOk s)

/-- The labels at which the source stores 0 into BOOTSTRAP_PROGRESS: the
stop call, the termination cleanup of the spawn wrapper (clean exit or fatal
error in any phase), and the reset performed by a successful start. -/
def resetsProgress : ArtiAction → Prop :=
  fun a =>
    match a with
    | ArtiAction.callStop => True
    | ArtiAction.supShutdown => True
    | ArtiAction.supDirsFail _ => True
    | ArtiAction.supConfigFail _ => True
    | ArtiAction.supBootFail _ => True
    | ArtiAction.supBindFail _ => True
    | ArtiAction.callStart _ _ _ => True
    | _ => False

/-- The state right after the first successful start from process start-up. -/
def sStarting : ArtiState := (arti_start (CPath.utf8 "/tmp/x") 39050 true s0).2

/-- The state after start and a complete successful bootstrap (directories
created, config built, create_bootstrapped succeeded): client stored,
progress 100, summary Ready, task about to bind the listener. -/
def sReady : ArtiState :=
  { running := true
    progress := 100
    summary := "Ready"
    stateInit := true
    shutdown_tx := true
    client := true
    signalFired := false
    phase := SupPhase.bootstrapped }

/-- Transport reachability along a decidable state equality. -/
theorem Reach.of_eq {s t : ArtiState} (h : Reach s) (e : s = t) : Reach t :=
  e ▸ h

/-- The post-start state is reachable: one callStart step from s0. -/
theorem reach_sStarting : Reach sStarting :=
  Reach.step Reach.init (Step.callStart s0 (CPath.utf8 "/tmp/x") 39050 true)

/-- The fully bootstrapped state is reachable: start, then the three
successful supervisor phases. -/
theorem reach_sReady : Reach sReady := by
  have h2 := Reach.step reach_sStarting (Step.supDirsOk sStarting (by decide))
  have h3 := Reach.step h2 (Step.supConfigOk _ (by decide))
  have h4 := Reach.step h3 (Step.supBootOk _ (by decide))
  exact Reach.of_eq h4 (by decide)

/-- arti_start either rejects (state unchanged) or succeeds with the
start-success state update. -/
theorem arti_start_snd_cases (dd : CPath) (port : Nat) (rtOk : Bool)
    (s : ArtiState) :
    (arti_start dd port rtOk s).2 = s ∨
    (arti_start dd port rtOk s).2 =
      { s with
        stateInit := true
        shutdown_tx := true
        signalFired := false
        phase := SupPhase.started
        running := true
        progress := 0
        summary := "Starting..." } := by
  unfold arti_start
  split
  · left; rfl
  · split
    · left; rfl
    · split
      · left; rfl
      · right; rfl

/-- arti_stop either rejects (state unchanged) or performs the stop update. -/
theorem arti_stop_snd_cases (s : ArtiState) :
    (arti_stop s).2 = s ∨
    (arti_stop s).2 =
      { s with
        shutdown_tx := false
        signalFired := s.signalFired || s.shutdown_tx
        client := false
        running := false
        progress := 0
        summary := "" } := by
  unfold arti_stop
  split
  · left; rfl
  · split
    · left; rfl
    · right; rfl

/-- arti_go_dormant either rejects or only rewrites the summary. -/
theorem arti_go_dormant_snd_cases (s : ArtiState) :
    (arti_go_dormant s).2 = s ∨
    (arti_go_dormant s).2 = { s with summary := "Dormant" } := by
  unfold arti_go_dormant
  split
  · left; rfl
  · right; rfl

/-- arti_wake either rejects or only rewrites the summary. -/
theorem arti_wake_snd_cases (s : ArtiState) :
    (arti_wake s).2 = s ∨
    (arti_wake s).2 = { s with summary := "Active" } := by
  unfold arti_wake
  split
  · left; rfl
  · right; rfl

/-- The inductive invariant of the system: a running instance implies the
runtime was initialised; the progress counter is binary; and once no task
is live in a non-running state the counter has been reset. -/
def ArtiInv (s : ArtiState) : Prop :=
  (s.running = true → s.stateInit = true) ∧
  (s.progress = 0 ∨ s.progress = 100) ∧
  (s.running = false ∧ s.phase = SupPhase.idle → s.progress = 0)

theorem artiInv_s0 : ArtiInv s0 := by
  refine ⟨?_, ?_, ?_⟩ <;> decide

theorem artiInv_preserved {s s' : ArtiState} {a : ArtiAction}
    (hs : Step s a s') (hi : ArtiInv s) : ArtiInv s' := by
  obtain ⟨h1, h2, h3⟩ := hi
  cases hs with
  | callStart dd port rtOk =>
    rcases arti_start_snd_cases dd port rtOk s with h | h <;> rw [h]
    · exact ⟨h1, h2, h3⟩
    · exact ⟨fun _ => rfl, Or.inl rfl, by simp⟩
  | callStop =>
    rcases arti_stop_snd_cases s with h | h <;> rw [h]
    · exact ⟨h1, h2, h3⟩
    · exact ⟨by simp, Or.inl rfl, fun _ => rfl⟩
  | callDormant =>
    rcases arti_go_dormant_snd_cases s with h | h <;> rw [h]
    · exact ⟨h1, h2, h3⟩
    · exact ⟨h1, h2, h3⟩
  | callWake =>
    rcases arti_wake_snd_cases s with h | h <;> rw [h]
    · exact ⟨h1, h2, h3⟩
    · exact ⟨h1, h2, h3⟩
  | supDirsOk h => exact ⟨h1, h2, by simp⟩
  | supDirsFail e h => exact ⟨by simp [supTermErr], Or.inl rfl, fun _ => rfl⟩
  | supConfigOk h => exact ⟨h1, h2, by simp⟩
  | supConfigFail e h =>
    exact ⟨by simp [supTermErr], Or.inl rfl, fun _ => rfl⟩
  | supBootOk h => exact ⟨h1, Or.inr rfl, by simp⟩
  | supBootFail e h =>
    exact ⟨by simp [supTermErr], Or.inl rfl, fun _ => rfl⟩
  | supBindOk h => exact ⟨h1, h2, by simp⟩
  | supBindFail e h =>
    exact ⟨by simp [supTermErr], Or.inl rfl, fun _ => rfl⟩
  | supAcceptConn h => exact ⟨h1, h2, h3⟩
  | supShutdown h hf =>
    exact ⟨by simp [supTermClean], Or.inl rfl, fun _ => rfl⟩

/-- Every reachable state satisfies the inductive invariant. -/
theorem reach_inv {s : ArtiState} (h : Reach s) : ArtiInv s := by
  induction h with
  | init => exact artiInv_s0
  | step hr hs ih => exact artiInv_preserved hs ih

/-- C1: in any state with the running flag true, arti_start — whatever the
data directory, port, or runtime oracle — returns the already-running code
-1 and leaves every observable component of the state (running flag,
progress counter, summary string, stored shutdown sender, stored client
handle, and the rest) exactly as before. -/
theorem C1_start_already_running (s : ArtiState) (dd : CPath) (port : Nat)
    (rtOk : Bool) (h : s.running = true) :
    arti_start dd port rtOk s = (-1, s) := by
  unfold arti_start
  rw [h]
  simp

/-- Witness for C1 at a concrete reachable running state. -/
theorem C1_start_already_running_witness :
    arti_start (CPath.utf8 "/data") 9050 true sStarting = (-1, sStarting) :=
  C1_start_already_running sStarting (CPath.utf8 "/data") 9050 true
    (by decide)

/-- C2 counterexample: the claim says every reachable state with
running = false has progress = 0 and summary = "".  But after arti_start
succeeds and the supervisor task terminates fatally (here: create_dir_all
fails), the wrapper stores running = false and progress = 0 while the
summary keeps the error text — the reachable state below has
running = false and a non-empty summary. -/
theorem C2_counterexample :
    Reach (supTermErr "disk full" sStarting) ∧
    (supTermErr "disk full" sStarting).running = false ∧
    (supTermErr "disk full" sStarting).summary = "Error: disk full" ∧
    ¬ (supTermErr "disk full" sStarting).summary = "" := by
  refine ⟨?_, by decide, by decide, by decide⟩
  exact Reach.step reach_sStarting
    (Step.supDirsFail sStarting "disk full" (by decide))

/-- C2 amended: in every reachable state in which the running flag is false
and no supervisor task is live, the progress counter is 0; the summary is
not forced to be empty (after a supervisor termination it retains the final
status or error text). -/
theorem C2_not_running_progress_zero (s : ArtiState) (hr : Reach s)
    (h1 : s.running = false) (h2 : s.phase = SupPhase.idle) :
    s.progress = 0 :=
  (reach_inv hr).2.2 ⟨h1, h2⟩

/-- Witness for the amended C2 at the initial state. -/
theorem C2_not_running_progress_zero_witness : s0.progress = 0 :=
  C2_not_running_progress_zero s0 Reach.init (by decide) (by decide)

/-- C3: arti_stop returns -1 when the running flag is false; from any
reachable running state it returns 0 after consuming the stored shutdown
sender (firing the signal when a sender was present, a no-op when it was
already absent), clearing the client handle, and resetting running,
progress, and summary; a second stop immediately afterwards returns -1 and
changes nothing, so the shutdown signal fires at most once per cycle. -/
theorem C3_stop_behaviour (s : ArtiState) :
    (s.running = false → arti_stop s = (-1, s)) ∧
    (Reach s → s.running = true →
      (arti_stop s).1 = 0 ∧
      (arti_stop s).2.shutdown_tx = false ∧
      (arti_stop s).2.client = false ∧
      (arti_stop s).2.running = false ∧
      (arti_stop s).2.progress = 0 ∧
      (arti_stop s).2.summary = "" ∧
      (s.shutdown_tx = true → (arti_stop s).2.signalFired = true) ∧
      (s.shutdown_tx = false → (arti_stop s).2.signalFired = s.signalFired) ∧
      arti_stop (arti_stop s).2 = (-1, (arti_stop s).2)) := by
  constructor
  · intro h
    unfold arti_stop
    rw [h]
    simp
  · intro hr hrun
    have hinit : s.stateInit = true := (reach_inv hr).1 hrun
    unfold arti_stop
    rw [hrun, hinit]
    simp
    exact ⟨fun h => Or.inr h, fun h h2 => by rw [h] at h2; cases h2⟩

/-- Witness for C3: stop on the initial (stopped) state reports -1, and on
the concrete reachable running state sStarting it reports 0. -/
theorem C3_stop_behaviour_witness :
    arti_stop s0 = (-1, s0) ∧ (arti_stop sStarting).1 = 0 :=
  ⟨(C3_stop_behaviour s0).1 (by decide),
   ((C3_stop_behaviour sStarting).2 reach_sStarting (by decide)).1⟩

/-- C4: for a non-null buffer and capacity n >= 1, arti_bootstrap_summary
writes exactly min(summary-length, n-1) content bytes followed by one null
terminator and returns that count; for n <= 0 or a null buffer it returns
-1 and writes nothing; and concretely, a 4-byte buffer with summary
"Ready" receives the bytes of "Rea" plus a terminator, returning 3. -/
theorem C4_bootstrap_summary_truncation (n : Int) (s : ArtiState) :
    (1 ≤ n →
      (arti_bootstrap_summary false n s).1 =
        min ((utf8Bytes s.summary).length : Int) (n - 1) ∧
      (arti_bootstrap_summary false n s).2 =
        (utf8Bytes s.summary).take (n - 1).toNat ++ [0]) ∧
    (n ≤ 0 → arti_bootstrap_summary false n s = (-1, [])) ∧
    arti_bootstrap_summary true n s = (-1, []) ∧
    arti_bootstrap_summary false 4 { s0 with summary := "Ready" } =
      (3, [82, 101, 97, 0]) := by
  refine ⟨?_, ?_, ?_, by decide⟩
  · intro h
    have he : arti_bootstrap_summary false n s =
        (((min (utf8Bytes s.summary).length (n - 1).toNat : Nat) : Int),
         (utf8Bytes s.summary).take
           (min (utf8Bytes s.summary).length (n - 1).toNat) ++ [0]) := by
      unfold arti_bootstrap_summary
      rw [if_neg (by simp; omega)]
    have ht : (utf8Bytes s.summary).take
          (min (utf8Bytes s.summary).length (n - 1).toNat) =
        (utf8Bytes s.summary).take (n - 1).toNat := by
      rw [List.take_eq_take]
      omega
    rw [he]
    constructor
    · show ((min (utf8Bytes s.summary).length (n - 1).toNat : Nat) : Int) =
        min ((utf8Bytes s.summary).length : Int) (n - 1)
      omega
    · show (utf8Bytes s.summary).take
          (min (utf8Bytes s.summary).length (n - 1).toNat) ++ [0] =
        (utf8Bytes s.summary).take (n - 1).toNat ++ [0]
      rw [ht]
  · intro h
    unfold arti_bootstrap_summary
    rw [if_pos (by simp; omega)]
  · unfold arti_bootstrap_summary
    rw [if_pos (by simp)]

/-- Witness for C4 at n = 4 with summary "Ready", and at n = 0. -/
theorem C4_bootstrap_summary_truncation_witness :
    ((arti_bootstrap_summary false 4 { s0 with summary := "Ready" }).1 =
      min ((utf8Bytes ({ s0 with summary := "Ready" } : ArtiState).summary).length : Int) 3) ∧
    arti_bootstrap_summary false 0 { s0 with summary := "Ready" } = (-1, []) :=
  ⟨((C4_bootstrap_summary_truncation 4 { s0 with summary := "Ready" }).1
      (by decide)).1,
   (C4_bootstrap_summary_truncation 0 { s0 with summary := "Ready" }).2.1
      (by decide)⟩

/-- C5 counterexample: the claim allows a decrease of the progress counter
only at the reset on stop, but after a successful bootstrap (progress 100)
a listener-bind failure terminates the supervisor, whose cleanup stores
progress 0 — a reachable decrease from 100 to 0 caused by an action that
is not a stop call. -/
theorem C5_counterexample :
    Reach sReady ∧ sReady.progress = 100 ∧
    Step sReady (ArtiAction.supBindFail "bind failed")
      (supTermErr "bind failed" sReady) ∧
    (supTermErr "bind failed" sReady).progress < sReady.progress ∧
    ArtiAction.supBindFail "bind failed" ≠ ArtiAction.callStop := by
  refine ⟨reach_sReady, by decide,
    Step.supBindFail sReady "bind failed" (by decide), by decide, by decide⟩

/-- C5 amended: every value of the progress counter in a reachable state is
0 or 100 (every write stores one of the two), and on every reachable step
the counter decreases only at a stop call, at the supervisor termination
cleanup (clean exit or fatal error), or at the reset performed by a new
start. -/
theorem C5_progress_binary_monotone :
    (∀ s : ArtiState, Reach s → s.progress = 0 ∨ s.progress = 100) ∧
    (∀ (s s' : ArtiState) (a : ArtiAction), Reach s → Step s a s' →
      s'.progress < s.progress → resetsProgress a) := by
  constructor
  · exact fun s hr => (reach_inv hr).2.1
  · intro s s' a hr hs hlt
    cases hs with
    | callStart dd port rtOk =>
      trivial
    | callStop => trivial
    | callDormant =>
      rcases arti_go_dormant_snd_cases s with h | h <;> rw [h] at hlt <;>
        simp at hlt
    | callWake =>
      rcases arti_wake_snd_cases s with h | h <;> rw [h] at hlt <;>
        simp at hlt
    | supDirsOk h => simp at hlt
    | supDirsFail e h => trivial
    | supConfigOk h => simp at hlt
    | supConfigFail e h => trivial
    | supBootOk h =>
      simp at hlt
      rcases (reach_inv hr).2.1 with h2 | h2 <;> omega
    | supBootFail e h => trivial
    | supBindOk h => simp at hlt
    | supBindFail e h => trivial
    | supAcceptConn h => simp at hlt
    | supShutdown h hf => trivial

/-- Witness for the amended C5: part one at the initial state, part two at
the reachable stop step from the bootstrapped state. -/
theorem C5_progress_binary_monotone_witness :
    (s0.progress = 0 ∨ s0.progress = 100) ∧
    resetsProgress ArtiAction.callStop :=
  ⟨C5_progress_binary_monotone.1 s0 Reach.init,
   C5_progress_binary_monotone.2 sReady (arti_stop sReady).2
     ArtiAction.callStop reach_sReady (Step.callStop sReady) (by decide)⟩

/-- C6: from any not-running state, with a path argument that decodes as a
string and with the runtime either already initialised or initialisable,
arti_start succeeds: it returns 0 after storing a fresh shutdown sender
(unfired channel), spawning the supervisor task, and setting running = true,
progress = 0 and summary = "Starting...". -/
theorem C6_start_success (s : ArtiState) (dd : CPath) (port : Nat)
    (rtOk : Bool) (p : String) (hrun : s.running = false)
    (hp : dd.toStr = some p) (hrt : s.stateInit = true ∨ rtOk = true) :
    arti_start dd port rtOk s =
      (0, { s with
            stateInit := true
            shutdown_tx := true
            signalFired := false
            phase := SupPhase.started
            running := true
            progress := 0
            summary := "Starting..." }) := by
  rcases hrt with h | h <;> simp [arti_start, hrun, hp, h]

/-- Witness for C6: the first start from the initial state. -/
theorem C6_start_success_witness :
    arti_start (CPath.utf8 "/tmp/x") 39050 true s0 =
      (0, { s0 with
            stateInit := true
            shutdown_tx := true
            signalFired := false
            phase := SupPhase.started
            running := true
            progress := 0
            summary := "Starting..." }) :=
  C6_start_success s0 (CPath.utf8 "/tmp/x") 39050 true "/tmp/x" rfl rfl
    (Or.inr rfl)

/-- C7 counterexample: the claim says arti_start returns -2 exactly when the
path is malformed, but in the reachable running state the already-running
check is performed first, so a malformed path argument yields -1, not -2. -/
theorem C7_counterexample :
    Reach sStarting ∧ sStarting.running = true ∧
    CPath.toStr CPath.invalidUtf8 = none ∧
    arti_start CPath.invalidUtf8 39050 true sStarting = (-1, sStarting) ∧
    (-1 : Int) ≠ -2 :=
  ⟨reach_sStarting, by decide, by decide, by decide, by decide⟩

/-- C7 amended: arti_start returns -2 exactly when the running flag is false
and the data_directory argument is not a well-formed UTF-8 string (when
running, the -1 rejection takes precedence); the -2 rejection happens
before the runtime is initialised and leaves the state byte-for-byte
unchanged. -/
theorem C7_start_invalid_path (s : ArtiState) (dd : CPath) (port : Nat)
    (rtOk : Bool) :
    ((arti_start dd port rtOk s).1 = -2 ↔
      s.running = false ∧ dd.toStr = none) ∧
    (s.running = false → dd.toStr = none →
      arti_start dd port rtOk s = (-2, s)) := by
  constructor
  · cases hb : s.running
    · cases hdd : dd.toStr with
      | none => simp [arti_start, hb, hdd]
      | some p =>
        simp only [arti_start, hb, hdd]
        split
        · simp
        · split
          · simp
          · simp
    · simp [arti_start, hb]
  · intro h1 h2
    simp [arti_start, h1, h2]

/-- Witness for the amended C7: a malformed path in the initial state. -/
theorem C7_start_invalid_path_witness :
    arti_start CPath.invalidUtf8 1 true s0 = (-2, s0) :=
  (C7_start_invalid_path s0 CPath.invalidUtf8 1 true).2 rfl rfl

/-- C8: start, stop, start with the same valid arguments return 0, 0, 0
from process start-up; the second start succeeds even if the runtime
creation oracle now says failure (the once-created runtime is reused), and
it restores exactly the state the first start produced — only the shutdown
signal (and, during the run, the client handle) were replaced. -/
theorem C8_restart (dd : CPath) (port : Nat) (p : String) (rtOk2 : Bool)
    (hp : dd.toStr = some p) :
    (arti_start dd port true s0).1 = 0 ∧
    (arti_stop (arti_start dd port true s0).2).1 = 0 ∧
    (arti_start dd port rtOk2
      (arti_stop (arti_start dd port true s0).2).2).1 = 0 ∧
    (arti_start dd port rtOk2
      (arti_stop (arti_start dd port true s0).2).2).2 =
      (arti_start dd port true s0).2 := by
  simp [arti_start, arti_stop, hp, s0]

/-- Witness for C8 with a concrete path and a failing second-start runtime
oracle. -/
theorem C8_restart_witness :
    (arti_start (CPath.utf8 "/tmp/x") 39050 false
      (arti_stop (arti_start (CPath.utf8 "/tmp/x") 39050 true s0).2).2).1 =
      0 :=
  (C8_restart (CPath.utf8 "/tmp/x") 39050 "/tmp/x" false rfl).2.2.1

/-- C9: arti_go_dormant and arti_wake each return -1 (state unchanged) when
the running flag is false; otherwise they return 0 and rewrite only the
summary string — running flag, progress counter, shutdown sender and
client handle are untouched. -/
theorem C9_dormant_wake (s : ArtiState) :
    (s.running = false →
      arti_go_dormant s = (-1, s) ∧ arti_wake s = (-1, s)) ∧
    (s.running = true →
      (arti_go_dormant s).1 = 0 ∧
      (arti_go_dormant s).2 = { s with summary := "Dormant" } ∧
      (arti_wake s).1 = 0 ∧
      (arti_wake s).2 = { s with summary := "Active" } ∧
      (arti_go_dormant s).2.running = s.running ∧
      (arti_go_dormant s).2.progress = s.progress ∧
      (arti_go_dormant s).2.shutdown_tx = s.shutdown_tx ∧
      (arti_go_dormant s).2.client = s.client ∧
      (arti_wake s).2.running = s.running ∧
      (arti_wake s).2.progress = s.progress ∧
      (arti_wake s).2.shutdown_tx = s.shutdown_tx ∧
      (arti_wake s).2.client = s.client) := by
  constructor
  · intro h
    refine ⟨?_, ?_⟩
    · unfold arti_go_dormant
      rw [if_pos h]
    · unfold arti_wake
      rw [if_pos h]
  · intro h
    have hd : arti_go_dormant s = (0, { s with summary := "Dormant" }) := by
      unfold arti_go_dormant
      rw [if_neg (by simp [h])]
      rfl
    have hw : arti_wake s = (0, { s with summary := "Active" }) := by
      unfold arti_wake
      rw [if_neg (by simp [h])]
      rfl
    rw [hd, hw]
    exact ⟨rfl, rfl, rfl, rfl, rfl, rfl, rfl, rfl, rfl, rfl, rfl, rfl⟩

/-- Witness for C9: not-running rejection at the initial state and the
success case at the concrete running state after start. -/
theorem C9_dormant_wake_witness :
    arti_go_dormant s0 = (-1, s0) ∧ (arti_go_dormant sStarting).1 = 0 :=
  ⟨((C9_dormant_wake s0).1 rfl).1,
   ((C9_dormant_wake sStarting).2 (by decide)).1⟩

/-- C10: a null data_dir pointer gives arti_start no defined result (the
pointer is passed to CStr.from_ptr unconditionally, so the FFI view maps
null to none), every defined return code of arti_start is one of 0, -1,
-2, -3 — none is reserved for a null path — while arti_bootstrap_summary
checks its buffer pointer and rejects null with -1, writing nothing. -/
theorem C10_null_data_dir_undefined :
    (∀ (port : Nat) (rtOk : Bool) (s : ArtiState),
      arti_start_ffi none port rtOk s = none) ∧
    (∀ (n : Int) (s : ArtiState),
      arti_bootstrap_summary true n s = (-1, [])) ∧
    (∀ (dd : CPath) (port : Nat) (rtOk : Bool) (s : ArtiState),
      (arti_start dd port rtOk s).1 = 0 ∨
      (arti_start dd port rtOk s).1 = -1 ∨
      (arti_start dd port rtOk s).1 = -2 ∨
      (arti_start dd port rtOk s).1 = -3) := by
  refine ⟨fun port rtOk s => rfl, fun n s => ?_, fun dd port rtOk s => ?_⟩
  · unfold arti_bootstrap_summary
    rw [if_pos (by simp)]
  · unfold arti_start
    split
    · exact Or.inr (Or.inl rfl)
    · split
      · exact Or.inr (Or.inr (Or.inl rfl))
      · split
        · exact Or.inr (Or.inr (Or.inr rfl))
        · exact Or.inl rfl
